import Mathlib

/-!
Shallow embedding of `src/infrastructure/aws/s3_bucket_setup.py`, the single
provisioning script of the patient-outcome-prediction-pipeline repository.

The script's only effects are synchronous calls against the AWS S3 management
API and, on overall success, writing one local JSON file.  We model each API
call as a value of `S3Call` and the cloud provider as an oracle
`S3Env : S3Call → ApiResult` giving the outcome of each call (success, or a
botocore `ClientError` carrying an error code).  Each routine is translated to
a pure function returning its Python return value together with the ordered
trace of API calls it issued; the JSON file becomes an `Option DataLakeConfig`
component of `create_data_lake`'s result.
-/

/-- Outcome of one S3 management API call: success, or a `ClientError`
with the provider's error code (`e.response['Error']['Code']`). -/
inductive ApiResult where
  | ok : ApiResult
  | clientError (code : String) : ApiResult
  deriving DecidableEq

/-- One entry of a lifecycle rule's `Transitions` list: an object age in days
and a target storage class. -/
structure Transition where
  days : Nat
  storageClass : String
  deriving DecidableEq

/-- One lifecycle rule, as built by `get_lifecycle_config`
(`ID`, `Status`, `Filter.Prefix`, `Transitions`). -/
structure LifecycleRule where
  ruleId : String
  status : String
  filterPfx : String
  transitions : List Transition
  deriving DecidableEq

/-- A lifecycle configuration: the `Rules` list. -/
structure LifecycleConfiguration where
  rules : List LifecycleRule
  deriving DecidableEq

/-- Python `get_lifecycle_config(tier)` (s3_bucket_setup.py, lines 158-226):
`if tier == "bronze": ... elif tier == "silver": ... else: # gold ...`. -/
def get_lifecycle_config (tier : String) : LifecycleConfiguration :=
  if tier = "bronze" then
    { rules := [{ ruleId := "Move to IA and Glacier", status := "Enabled", filterPfx := "",
                  transitions := [{ days := 60, storageClass := "STANDARD_IA" },
                                  { days := 180, storageClass := "GLACIER" }] }] }
  else if tier = "silver" then
    { rules := [{ ruleId := "Move to IA and Glacier", status := "Enabled", filterPfx := "",
                  transitions := [{ days := 30, storageClass := "STANDARD_IA" },
                                  { days := 90, storageClass := "GLACIER" }] }] }
  else
    { rules := [{ ruleId := "Move to IA", status := "Enabled", filterPfx := "",
                  transitions := [{ days := 30, storageClass := "STANDARD_IA" }] }] }

/-- Module-level constant `PROJECT_NAME` (line 20). -/
def PROJECT_NAME : String := "patient-outcome"

/-- Module-level constant `AWS_REGION` (line 21). -/
def AWS_REGION : String := "us-west-2"

/-- Module-level constant `ENVIRONMENT` (line 22). -/
def ENVIRONMENT : String := "dev"

/-- Module-level constant `BRONZE_BUCKET` (line 25). -/
def BRONZE_BUCKET : String := PROJECT_NAME ++ "-" ++ ENVIRONMENT ++ "-bronze-data"

/-- Module-level constant `SILVER_BUCKET` (line 26). -/
def SILVER_BUCKET : String := PROJECT_NAME ++ "-" ++ ENVIRONMENT ++ "-silver-data"

/-- Module-level constant `GOLD_BUCKET` (line 27). -/
def GOLD_BUCKET : String := PROJECT_NAME ++ "-" ++ ENVIRONMENT ++ "-gold-data"

/-- The S3 management API calls the script can issue, with the parameters the
Python passes.  `deleteBucket` is in the vocabulary so that "the script never
deletes a bucket" is expressible; the script never constructs it. -/
inductive S3Call where
  | createBucket (bucket : String) (region : String) (locationConstraint : Option String) : S3Call
  | putBucketVersioning (bucket : String) (status : String) : S3Call
  | putBucketEncryption (bucket : String) (sseAlgorithm : String) (bucketKeyEnabled : Bool) : S3Call
  | putPublicAccessBlock (bucket : String)
      (blockPublicAcls ignorePublicAcls blockPublicPolicy restrictPublicBuckets : Bool) : S3Call
  | putBucketLifecycleConfiguration (bucket : String) (config : LifecycleConfiguration) : S3Call
  | putBucketTagging (bucket : String) (tagSet : List (String × String)) : S3Call
  | deleteBucket (bucket : String) : S3Call
  deriving DecidableEq

/-- The cloud provider, modelled as an oracle assigning an outcome to every
possible API call. -/
abbrev S3Env := S3Call → ApiResult

/-- The `TagSet` passed to `put_bucket_tagging` (lines 124-150). -/
def compliance_tags (tier : String) : List (String × String) :=
  [("Project", "PatientOutcomePrediction"), ("Environment", ENVIRONMENT),
   ("DataTier", tier), ("Contains-PHI", "True"), ("Compliance", "HIPAA")]

/-- The `create_bucket` API call issued at lines 47-53: in `us-east-1` no
`CreateBucketConfiguration` is passed, otherwise `LocationConstraint` is the
region. -/
def createCallOf (bucket_name region : String) : S3Call :=
  if region = "us-east-1" then S3Call.createBucket bucket_name region none
  else S3Call.createBucket bucket_name region (some region)

/-- The `put_bucket_versioning` call of lines 65-68. -/
def versioningCall (bucket_name : String) : S3Call :=
  S3Call.putBucketVersioning bucket_name "Enabled"

/-- The `put_bucket_encryption` call of lines 76-88. -/
def encryptionCall (bucket_name : String) : S3Call :=
  S3Call.putBucketEncryption bucket_name "AES256" true

/-- The `put_public_access_block` call of lines 96-104. -/
def publicAccessCall (bucket_name : String) : S3Call :=
  S3Call.putPublicAccessBlock bucket_name true true true true

/-- The `put_bucket_lifecycle_configuration` call of lines 113-116. -/
def lifecycleCall (bucket_name tier : String) : S3Call :=
  S3Call.putBucketLifecycleConfiguration bucket_name (get_lifecycle_config tier)

/-- The `put_bucket_tagging` call of lines 124-150. -/
def taggingCall (bucket_name tier : String) : S3Call :=
  S3Call.putBucketTagging bucket_name (compliance_tags tier)

/-- The five configuration steps of `create_bucket` (lines 63-156): versioning,
encryption, public-access block, lifecycle, tagging, each wrapped in
`try/except ClientError` with `return False` in the handler.  Returns the
Python return value together with the trace of calls issued (a failing call
was issued — it raised — so it is in the trace). -/
def configureSteps (env : S3Env) (bucket_name tier : String) : Bool × List S3Call :=
  match env (versioningCall bucket_name) with
  | ApiResult.clientError _ => (false, [versioningCall bucket_name])
  | ApiResult.ok =>
    match env (encryptionCall bucket_name) with
    | ApiResult.clientError _ => (false, [versioningCall bucket_name, encryptionCall bucket_name])
    | ApiResult.ok =>
      match env (publicAccessCall bucket_name) with
      | ApiResult.clientError _ =>
          (false, [versioningCall bucket_name, encryptionCall bucket_name,
                   publicAccessCall bucket_name])
      | ApiResult.ok =>
        match env (lifecycleCall bucket_name tier) with
        | ApiResult.clientError _ =>
            (false, [versioningCall bucket_name, encryptionCall bucket_name,
                     publicAccessCall bucket_name, lifecycleCall bucket_name tier])
        | ApiResult.ok =>
          match env (taggingCall bucket_name tier) with
          | ApiResult.clientError _ =>
              (false, [versioningCall bucket_name, encryptionCall bucket_name,
                       publicAccessCall bucket_name, lifecycleCall bucket_name tier,
                       taggingCall bucket_name tier])
          | ApiResult.ok =>
              (true, [versioningCall bucket_name, encryptionCall bucket_name,
                      publicAccessCall bucket_name, lifecycleCall bucket_name tier,
                      taggingCall bucket_name tier])

/-- Python `create_bucket(bucket_name, region, tier)` (lines 29-156).
The creation call's `ClientError` is inspected: code `BucketAlreadyOwnedByYou`
is logged and tolerated, any other code returns `False` (lines 55-61); on
success or tolerated error the five configuration steps follow. -/
def create_bucket (env : S3Env) (bucket_name region tier : String) : Bool × List S3Call :=
  match env (createCallOf bucket_name region) with
  | ApiResult.ok =>
      ((configureSteps env bucket_name tier).1,
        createCallOf bucket_name region :: (configureSteps env bucket_name tier).2)
  | ApiResult.clientError code =>
      if code = "BucketAlreadyOwnedByYou" then
        ((configureSteps env bucket_name tier).1,
          createCallOf bucket_name region :: (configureSteps env bucket_name tier).2)
      else
        (false, [createCallOf bucket_name region])

/-- The JSON summary written to `data_lake_config.json` (lines 250-262):
keys `project`, `environment`, `region`, `buckets`; `buckets` maps the three
tier keys to the three bucket names, in the dict's insertion order. -/
structure DataLakeConfig where
  project : String
  environment : String
  region : String
  buckets : List (String × String)
  deriving DecidableEq

/-- The loop of `create_data_lake` (lines 238-241): overall success is `True`
exactly when every per-bucket call returned `True`. -/
def allOk (env : S3Env) : Bool :=
  (create_bucket env BRONZE_BUCKET AWS_REGION "bronze").1 &&
  (create_bucket env SILVER_BUCKET AWS_REGION "silver").1 &&
  (create_bucket env GOLD_BUCKET AWS_REGION "gold").1

/-- The API calls issued by one run of `create_data_lake`: the three
`create_bucket` invocations in the dict's insertion order bronze, silver,
gold, each attempted regardless of the previous ones' outcomes. -/
def fullTrace (env : S3Env) : List S3Call :=
  (create_bucket env BRONZE_BUCKET AWS_REGION "bronze").2 ++
  (create_bucket env SILVER_BUCKET AWS_REGION "silver").2 ++
  (create_bucket env GOLD_BUCKET AWS_REGION "gold").2

/-- The `config` dict of lines 250-259. -/
def data_lake_config : DataLakeConfig :=
  { project := PROJECT_NAME, environment := ENVIRONMENT, region := AWS_REGION,
    buckets := [("bronze", BRONZE_BUCKET), ("silver", SILVER_BUCKET), ("gold", GOLD_BUCKET)] }

/-- Python `create_data_lake()` (lines 228-268): runs the three per-tier
provisioning calls, and only when all succeeded writes `data_lake_config.json`
and returns `True`; otherwise returns `False` with no file written. -/
def create_data_lake (env : S3Env) : Bool × List S3Call × Option DataLakeConfig :=
  (allOk env, fullTrace env,
    if allOk env = true then some data_lake_config else none)

/-- The maximal call sequence of one `create_bucket` invocation, in source
order: creation first, then the five configuration calls. -/
def fullCallList (bucket_name region tier : String) : List S3Call :=
  [createCallOf bucket_name region, versioningCall bucket_name, encryptionCall bucket_name,
   publicAccessCall bucket_name, lifecycleCall bucket_name tier, taggingCall bucket_name tier]

/-- Whether a call is a bucket-creation call. -/
def isCreateCall : S3Call → Bool
  | S3Call.createBucket _ _ _ => true
  | _ => false

/-- Whether a call is a bucket-deletion call. -/
def isDeleteCall : S3Call → Bool
  | S3Call.deleteBucket _ => true
  | _ => false

/-- The bucket an API call targets. -/
def callBucket : S3Call → String
  | S3Call.createBucket b _ _ => b
  | S3Call.putBucketVersioning b _ => b
  | S3Call.putBucketEncryption b _ _ => b
  | S3Call.putPublicAccessBlock b _ _ _ _ => b
  | S3Call.putBucketLifecycleConfiguration b _ => b
  | S3Call.putBucketTagging b _ => b
  | S3Call.deleteBucket b => b

/-- The `(Days, StorageClass)` transition pairs of a lifecycle configuration,
in rule order. -/
def transitionsOf (c : LifecycleConfiguration) : List (Nat × String) :=
  c.rules.flatMap (fun r => r.transitions.map (fun tr => (tr.days, tr.storageClass)))

/-- Oracle under which every API call succeeds. -/
def envAllOk : S3Env := fun _ => ApiResult.ok

/-- Oracle under which creating the bronze bucket reports
`BucketAlreadyOwnedByYou` and every other call succeeds. -/
def envAlreadyOwned : S3Env := fun c =>
  if c = createCallOf BRONZE_BUCKET AWS_REGION then ApiResult.clientError "BucketAlreadyOwnedByYou"
  else ApiResult.ok

/-- Oracle under which creating the bronze bucket reports `AccessDenied` and
every other call succeeds. -/
def envOtherError : S3Env := fun c =>
  if c = createCallOf BRONZE_BUCKET AWS_REGION then ApiResult.clientError "AccessDenied"
  else ApiResult.ok

/-- Oracle under which every `put_bucket_versioning` call reports
`AccessDenied` and every other call succeeds. -/
def envVersioningFails : S3Env := fun c =>
  match c with
  | S3Call.putBucketVersioning _ _ => ApiResult.clientError "AccessDenied"
  | _ => ApiResult.ok

/-- C1: for every tier the lifecycle selector returns exactly the documented
ordered transition list: bronze → (60d→STANDARD_IA, 180d→GLACIER); silver →
(30d→STANDARD_IA, 90d→GLACIER); gold → (30d→STANDARD_IA). -/
theorem get_lifecycle_config_documented_transitions :
    transitionsOf (get_lifecycle_config "bronze") = [(60, "STANDARD_IA"), (180, "GLACIER")] ∧
    transitionsOf (get_lifecycle_config "silver") = [(30, "STANDARD_IA"), (90, "GLACIER")] ∧
    transitionsOf (get_lifecycle_config "gold") = [(30, "STANDARD_IA")] := by
  refine ⟨?_, ?_, ?_⟩ <;> decide

/-- Helper: the six possible outcomes of the five configuration steps. -/
theorem configureSteps_cases (env : S3Env) (b t : String) :
    configureSteps env b t = (false, [versioningCall b]) ∨
    configureSteps env b t = (false, [versioningCall b, encryptionCall b]) ∨
    configureSteps env b t = (false, [versioningCall b, encryptionCall b, publicAccessCall b]) ∨
    configureSteps env b t =
      (false, [versioningCall b, encryptionCall b, publicAccessCall b, lifecycleCall b t]) ∨
    configureSteps env b t =
      (false, [versioningCall b, encryptionCall b, publicAccessCall b, lifecycleCall b t,
               taggingCall b t]) ∨
    configureSteps env b t =
      (true, [versioningCall b, encryptionCall b, publicAccessCall b, lifecycleCall b t,
              taggingCall b t]) := by
  unfold configureSteps
  cases env (versioningCall b) with
  | clientError code => exact Or.inl rfl
  | ok =>
    cases env (encryptionCall b) with
    | clientError code => exact Or.inr (Or.inl rfl)
    | ok =>
      cases env (publicAccessCall b) with
      | clientError code => exact Or.inr (Or.inr (Or.inl rfl))
      | ok =>
        cases env (lifecycleCall b t) with
        | clientError code => exact Or.inr (Or.inr (Or.inr (Or.inl rfl)))
        | ok =>
          cases env (taggingCall b t) with
          | clientError code => exact Or.inr (Or.inr (Or.inr (Or.inr (Or.inl rfl))))
          | ok => exact Or.inr (Or.inr (Or.inr (Or.inr (Or.inr rfl))))

/-- Helper: the configuration phase reports success exactly when all five
configuration calls succeed. -/
theorem configureSteps_true_iff (env : S3Env) (b t : String) :
    (configureSteps env b t).1 = true ↔
      (env (versioningCall b) = ApiResult.ok ∧ env (encryptionCall b) = ApiResult.ok ∧
       env (publicAccessCall b) = ApiResult.ok ∧ env (lifecycleCall b t) = ApiResult.ok ∧
       env (taggingCall b t) = ApiResult.ok) := by
  unfold configureSteps
  cases hv : env (versioningCall b) with
  | clientError code => simp [hv]
  | ok =>
    cases he : env (encryptionCall b) with
    | clientError code => simp [hv, he]
    | ok =>
      cases hp : env (publicAccessCall b) with
      | clientError code => simp [hv, he, hp]
      | ok =>
        cases hl : env (lifecycleCall b t) with
        | clientError code => simp [hv, he, hp, hl]
        | ok =>
          cases ht : env (taggingCall b t) with
          | clientError code => simp [hv, he, hp, hl, ht]
          | ok => simp [hv, he, hp, hl, ht]

/-- Helper: `create_bucket` either stops at a non-tolerated creation error, or
proceeds into the configuration phase. -/
theorem create_bucket_cases (env : S3Env) (b r t : String) :
    create_bucket env b r t = (false, [createCallOf b r]) ∨
    create_bucket env b r t =
      ((configureSteps env b t).1, createCallOf b r :: (configureSteps env b t).2) := by
  unfold create_bucket
  cases env (createCallOf b r) with
  | ok => exact Or.inr rfl
  | clientError code =>
    dsimp only
    by_cases h : code = "BucketAlreadyOwnedByYou"
    · rw [if_pos h]; exact Or.inr rfl
    · rw [if_neg h]; exact Or.inl rfl

/-- Helper: the creation call is a creation call whatever the region branch. -/
theorem isCreateCall_createCallOf (b r : String) : isCreateCall (createCallOf b r) = true := by
  unfold createCallOf
  split <;> rfl

/-- Helper: the creation call is not a deletion call. -/
theorem isDeleteCall_createCallOf (b r : String) : isDeleteCall (createCallOf b r) = false := by
  unfold createCallOf
  split <;> rfl

/-- Helper: the creation call targets its own bucket. -/
theorem callBucket_createCallOf (b r : String) : callBucket (createCallOf b r) = b := by
  unfold createCallOf
  split <;> rfl

/-- C2: a creation error with code `BucketAlreadyOwnedByYou` is tolerated:
`create_bucket` proceeds to the configuration steps and returns their verdict
(so re-running provisioning against an existing bucket succeeds when the
configuration calls succeed); any other creation error code makes it return
`False` at once. -/
theorem create_bucket_idempotent_create (env : S3Env) (b r t : String) :
    (env (createCallOf b r) = ApiResult.clientError "BucketAlreadyOwnedByYou" →
      create_bucket env b r t =
        ((configureSteps env b t).1, createCallOf b r :: (configureSteps env b t).2)) ∧
    (∀ code, code ≠ "BucketAlreadyOwnedByYou" →
      env (createCallOf b r) = ApiResult.clientError code →
      create_bucket env b r t = (false, [createCallOf b r])) := by
  constructor
  · intro h
    unfold create_bucket
    rw [h]
    dsimp only
    rw [if_pos rfl]
  · intro code hne h
    unfold create_bucket
    rw [h]
    dsimp only
    rw [if_neg hne]

/-- C2 witness: under `envAlreadyOwned` (creation reports
`BucketAlreadyOwnedByYou`, everything else succeeds) re-provisioning proceeds
into configuration and succeeds; under `envOtherError` (`AccessDenied`)
`create_bucket` stops with `False` after the creation call alone. -/
theorem create_bucket_idempotent_create_witness :
    create_bucket envAlreadyOwned BRONZE_BUCKET AWS_REGION "bronze" =
      ((configureSteps envAlreadyOwned BRONZE_BUCKET "bronze").1,
        createCallOf BRONZE_BUCKET AWS_REGION ::
          (configureSteps envAlreadyOwned BRONZE_BUCKET "bronze").2) ∧
    (create_bucket envAlreadyOwned BRONZE_BUCKET AWS_REGION "bronze").1 = true ∧
    create_bucket envOtherError BRONZE_BUCKET AWS_REGION "bronze" =
      (false, [createCallOf BRONZE_BUCKET AWS_REGION]) :=
  ⟨(create_bucket_idempotent_create envAlreadyOwned BRONZE_BUCKET AWS_REGION "bronze").1
      (by decide),
   by decide,
   (create_bucket_idempotent_create envOtherError BRONZE_BUCKET AWS_REGION "bronze").2
      "AccessDenied" (by decide) (by decide)⟩

/-- C4: `create_bucket` returns `True` exactly when the creation outcome is
tolerated (success or `BucketAlreadyOwnedByYou`) and all five configuration
calls succeed; equivalently, any configuration step's provider error makes it
return the failure flag `False`. -/
theorem create_bucket_success_iff (env : S3Env) (b r t : String) :
    (create_bucket env b r t).1 = true ↔
      ((env (createCallOf b r) = ApiResult.ok ∨
        env (createCallOf b r) = ApiResult.clientError "BucketAlreadyOwnedByYou") ∧
       env (versioningCall b) = ApiResult.ok ∧ env (encryptionCall b) = ApiResult.ok ∧
       env (publicAccessCall b) = ApiResult.ok ∧ env (lifecycleCall b t) = ApiResult.ok ∧
       env (taggingCall b t) = ApiResult.ok) := by
  unfold create_bucket
  cases hc : env (createCallOf b r) with
  | ok => simp [configureSteps_true_iff]
  | clientError code =>
    by_cases h : code = "BucketAlreadyOwnedByYou"
    · subst h
      simp [configureSteps_true_iff]
    · simp [h, configureSteps_true_iff]

/-- C7: the calls of one `create_bucket` invocation start with the creation
call and form a prefix of the fixed source-order sequence
creation, versioning, encryption, public-access block, lifecycle, tagging. -/
theorem create_bucket_call_order (env : S3Env) (b r t : String) :
    (create_bucket env b r t).2.head? = some (createCallOf b r) ∧
    ∃ rest, (create_bucket env b r t).2 ++ rest = fullCallList b r t := by
  rcases create_bucket_cases env b r t with h | h
  · rw [h]
    exact ⟨rfl, [versioningCall b, encryptionCall b, publicAccessCall b, lifecycleCall b t,
      taggingCall b t], rfl⟩
  · rw [h]
    refine ⟨rfl, ?_⟩
    rcases configureSteps_cases env b t with h2 | h2 | h2 | h2 | h2 | h2 <;> rw [h2] <;>
      exact ⟨_, rfl⟩

/-- C5 counterexample: under `envVersioningFails` the versioning step fails
and `create_bucket` stops at once: its trace is just the creation and
versioning calls, so the encryption, public-access, lifecycle and tagging
steps are never attempted — the five steps are not attempted independently of
each other's outcomes. -/
theorem create_bucket_steps_not_independent :
    create_bucket envVersioningFails BRONZE_BUCKET AWS_REGION "bronze" =
      (false, [createCallOf BRONZE_BUCKET AWS_REGION, versioningCall BRONZE_BUCKET]) := by
  decide

/-- Helper: the configuration phase issues no deletion call. -/
theorem configureSteps_no_delete (env : S3Env) (b t : String) :
    (configureSteps env b t).2.filter isDeleteCall = [] := by
  rcases configureSteps_cases env b t with h | h | h | h | h | h <;> rw [h] <;> rfl

/-- Helper: a `create_bucket` invocation issues no deletion call. -/
theorem create_bucket_no_delete (env : S3Env) (b r t : String) :
    (create_bucket env b r t).2.filter isDeleteCall = [] := by
  have hcreate := isDeleteCall_createCallOf b r
  rcases create_bucket_cases env b r t with h | h <;> rw [h]
  · simp [List.filter_cons, hcreate]
  · simp [List.filter_cons, hcreate, configureSteps_no_delete env b t]

/-- C5 (amended): no rollback — the trace of `create_bucket` never contains a
deletion call and is always a prefix of the source-order call sequence, so
every call issued by an earlier step remains issued and no undo follows a
failure; and whenever `create_bucket` returns `True` the full six-call
sequence was issued.  (The converse fails: a tagging-only failure also issues
all six calls yet returns `False`.) -/
theorem create_bucket_no_rollback (env : S3Env) (b r t : String) :
    (create_bucket env b r t).2.filter isDeleteCall = [] ∧
    (∃ rest, (create_bucket env b r t).2 ++ rest = fullCallList b r t) ∧
    ((create_bucket env b r t).1 = true →
      (create_bucket env b r t).2 = fullCallList b r t) := by
  refine ⟨create_bucket_no_delete env b r t, ?_, ?_⟩
  · rcases create_bucket_cases env b r t with h | h <;> rw [h]
    · exact ⟨_, rfl⟩
    · rcases configureSteps_cases env b t with h2 | h2 | h2 | h2 | h2 | h2 <;> rw [h2] <;>
        exact ⟨_, rfl⟩
  · intro htrue
    rcases create_bucket_cases env b r t with h | h
    · rw [h] at htrue
      simp at htrue
    · rw [h] at htrue ⊢
      rcases configureSteps_cases env b t with h2 | h2 | h2 | h2 | h2 | h2 <;>
        rw [h2] at htrue ⊢ <;> first | rfl | simp at htrue

/-- C5 witness: under the all-success oracle the bronze invocation issues no
deletion call and issues exactly the six source-order calls. -/
theorem create_bucket_no_rollback_witness :
    (create_bucket envAllOk BRONZE_BUCKET AWS_REGION "bronze").2.filter isDeleteCall = [] ∧
    (create_bucket envAllOk BRONZE_BUCKET AWS_REGION "bronze").2 =
      fullCallList BRONZE_BUCKET AWS_REGION "bronze" :=
  ⟨(create_bucket_no_rollback envAllOk BRONZE_BUCKET AWS_REGION "bronze").1,
   (create_bucket_no_rollback envAllOk BRONZE_BUCKET AWS_REGION "bronze").2.2 (by decide)⟩

/-- Helper: the configuration phase issues no creation call. -/
theorem configureSteps_no_create (env : S3Env) (b t : String) :
    (configureSteps env b t).2.filter isCreateCall = [] := by
  rcases configureSteps_cases env b t with h | h | h | h | h | h <;> rw [h] <;> rfl

/-- Helper: a `create_bucket` invocation issues exactly one creation call. -/
theorem create_bucket_creates_once (env : S3Env) (b r t : String) :
    (create_bucket env b r t).2.filter isCreateCall = [createCallOf b r] := by
  have hcreate := isCreateCall_createCallOf b r
  rcases create_bucket_cases env b r t with h | h <;> rw [h]
  · simp [List.filter_cons, hcreate]
  · simp [List.filter_cons, hcreate, configureSteps_no_create env b t]

/-- Helper: the trace of `create_bucket` is a prefix of the source-order call
sequence. -/
theorem create_bucket_trace_pre (env : S3Env) (b r t : String) :
    ∃ rest, (create_bucket env b r t).2 ++ rest = fullCallList b r t := by
  rcases create_bucket_cases env b r t with h | h <;> rw [h]
  · exact ⟨_, rfl⟩
  · rcases configureSteps_cases env b t with h2 | h2 | h2 | h2 | h2 | h2 <;> rw [h2] <;>
      exact ⟨_, rfl⟩

/-- Helper: every call of the source-order sequence targets its own bucket. -/
theorem mem_fullCallList_own (b r t : String) :
    ∀ c ∈ fullCallList b r t, callBucket c = b := by
  intro c hc
  simp [fullCallList] at hc
  rcases hc with rfl | rfl | rfl | rfl | rfl | rfl
  · exact callBucket_createCallOf b r
  all_goals rfl

/-- Helper: every call a `create_bucket` invocation issues targets that
invocation's own bucket. -/
theorem create_bucket_own_bucket (env : S3Env) (b r t : String) :
    ∀ c ∈ (create_bucket env b r t).2, callBucket c = b := by
  intro c hc
  obtain ⟨rest, hpre⟩ := create_bucket_trace_pre env b r t
  have hmem : c ∈ fullCallList b r t := by
    rw [← hpre]
    exact List.mem_append.mpr (Or.inl hc)
  exact mem_fullCallList_own b r t c hmem

/-- C3: whenever `create_data_lake` succeeds, the written summary holds
exactly the keys project, environment, region, buckets, where `buckets` maps
the three tiers to the three expected bucket names and nothing else. -/
theorem create_data_lake_config_exact (env : S3Env)
    (h : (create_data_lake env).1 = true) :
    (create_data_lake env).2.2 = some
      { project := "patient-outcome", environment := "dev", region := "us-west-2",
        buckets := [("bronze", "patient-outcome-dev-bronze-data"),
                    ("silver", "patient-outcome-dev-silver-data"),
                    ("gold", "patient-outcome-dev-gold-data")] } := by
  have h1 : allOk env = true := h
  show (if allOk env = true then some data_lake_config else none) = _
  rw [if_pos h1]
  decide

/-- C3 witness: under the all-success oracle provisioning succeeds and the
summary file holds exactly the three expected bucket names. -/
theorem create_data_lake_config_exact_witness :
    (create_data_lake envAllOk).1 = true ∧
    (create_data_lake envAllOk).2.2 = some
      { project := "patient-outcome", environment := "dev", region := "us-west-2",
        buckets := [("bronze", "patient-outcome-dev-bronze-data"),
                    ("silver", "patient-outcome-dev-silver-data"),
                    ("gold", "patient-outcome-dev-gold-data")] } :=
  ⟨by decide, create_data_lake_config_exact envAllOk (by decide)⟩

/-- C6: `create_data_lake` attempts each of the three tiers exactly once, in
the order bronze, silver, gold, whatever the individual outcomes (one creation
call per tier in its trace, no retry), never deletes a bucket, and returns
`True` exactly when all three per-bucket calls returned `True`. -/
theorem create_data_lake_aggregates (env : S3Env) :
    (create_data_lake env).2.1.filter isCreateCall =
      [createCallOf BRONZE_BUCKET AWS_REGION, createCallOf SILVER_BUCKET AWS_REGION,
       createCallOf GOLD_BUCKET AWS_REGION] ∧
    (create_data_lake env).2.1.filter isDeleteCall = [] ∧
    ((create_data_lake env).1 = true ↔
      ((create_bucket env BRONZE_BUCKET AWS_REGION "bronze").1 = true ∧
       (create_bucket env SILVER_BUCKET AWS_REGION "silver").1 = true ∧
       (create_bucket env GOLD_BUCKET AWS_REGION "gold").1 = true)) := by
  refine ⟨?_, ?_, ?_⟩
  · show (fullTrace env).filter isCreateCall = _
    unfold fullTrace
    rw [List.filter_append, List.filter_append, create_bucket_creates_once,
      create_bucket_creates_once, create_bucket_creates_once]
    rfl
  · show (fullTrace env).filter isDeleteCall = []
    unfold fullTrace
    rw [List.filter_append, List.filter_append, create_bucket_no_delete,
      create_bucket_no_delete, create_bucket_no_delete]
    rfl
  · show allOk env = true ↔ _
    unfold allOk
    simp [Bool.and_eq_true, and_assoc]

/-- C8: the lifecycle selector is total with no error branch — every tier
string other than bronze and silver, misspelled or empty ones included, falls
through to the gold-tier configuration. -/
theorem get_lifecycle_config_total_default (tier : String)
    (h1 : tier ≠ "bronze") (h2 : tier ≠ "silver") :
    get_lifecycle_config tier = get_lifecycle_config "gold" := by
  simp [get_lifecycle_config, h1, h2]

/-- C8 witness: the empty tier name is mapped to the gold configuration. -/
theorem get_lifecycle_config_total_default_witness :
    get_lifecycle_config "" = get_lifecycle_config "gold" :=
  get_lifecycle_config_total_default "" (by decide) (by decide)

/-- C9: one run of `create_data_lake` issues no bucket-deletion call; its
trace is the three per-bucket invocations one after the other; every call of
an invocation targets that invocation's own bucket; and the three bucket
names are pairwise distinct — so once a bucket's own `create_bucket`
invocation completes, no later call configures or mutates it. -/
theorem create_data_lake_monotone (env : S3Env) :
    (create_data_lake env).2.1.filter isDeleteCall = [] ∧
    (create_data_lake env).2.1 =
      (create_bucket env BRONZE_BUCKET AWS_REGION "bronze").2 ++
      (create_bucket env SILVER_BUCKET AWS_REGION "silver").2 ++
      (create_bucket env GOLD_BUCKET AWS_REGION "gold").2 ∧
    (∀ e2 b r t, ∀ c ∈ (create_bucket e2 b r t).2, callBucket c = b) ∧
    (BRONZE_BUCKET ≠ SILVER_BUCKET ∧ BRONZE_BUCKET ≠ GOLD_BUCKET ∧
     SILVER_BUCKET ≠ GOLD_BUCKET) := by
  refine ⟨?_, rfl, fun e2 b r t => create_bucket_own_bucket e2 b r t, by decide, by decide,
    by decide⟩
  show (fullTrace env).filter isDeleteCall = []
  unfold fullTrace
  rw [List.filter_append, List.filter_append, create_bucket_no_delete,
    create_bucket_no_delete, create_bucket_no_delete]
  rfl

/-- C9 witness: in the all-success run, the versioning call of the bronze
invocation targets the bronze bucket. -/
theorem create_data_lake_monotone_witness :
    callBucket (versioningCall BRONZE_BUCKET) = BRONZE_BUCKET :=
  (create_data_lake_monotone envAllOk).2.2.1 envAllOk BRONZE_BUCKET AWS_REGION "bronze"
    (versioningCall BRONZE_BUCKET) (by decide)

/-- C10: the summary file is written exactly when all three per-bucket calls
succeeded; in any failing run nothing is written (not even a partial summary)
and `create_data_lake` returns `False`. -/
theorem config_file_iff_success (env : S3Env) :
    ((create_data_lake env).2.2 = some data_lake_config ↔ (create_data_lake env).1 = true) ∧
    ((create_data_lake env).1 = false → (create_data_lake env).2.2 = none) := by
  constructor
  · show (if allOk env = true then some data_lake_config else none) = some data_lake_config ↔
      allOk env = true
    by_cases h1 : allOk env = true
    · rw [if_pos h1]
      simp [h1]
    · rw [if_neg h1]
      simp [h1]
  · intro h
    have h1 : allOk env = false := h
    show (if allOk env = true then some data_lake_config else none) = none
    rw [h1]
    rfl

/-- C10 witness: when every versioning call fails, `create_data_lake` returns
`False` and writes no summary file. -/
theorem config_file_iff_success_witness :
    (create_data_lake envVersioningFails).1 = false ∧
    (create_data_lake envVersioningFails).2.2 = none :=
  ⟨by decide, (config_file_iff_success envVersioningFails).2 (by decide)⟩
